import Mathlib

/-!
Verification of `download_molstar_issues.py`, a bulk GitHub issue/discussion
downloader.  The Python source is shallowly embedded: GraphQL page requests
become explicit structures recording the parameters appearing in the query
strings, the page-fetch loops become a recursive function over the sequence of
service responses, the renderers become pure functions from item records to
lists of output lines, and Python dict-subscript failures (`None['name']`)
become `Except` errors.
-/

namespace Molstar

/-- `REPO_OWNER` constant from the source. -/
def REPO_OWNER : String := "molstar"

/-- `REPO_NAME` constant from the source. -/
def REPO_NAME : String := "molstar"

/-- A GraphQL actor: `author { login }`. -/
structure Author where
  login : String
deriving DecidableEq

/-- A label node: `labels(first: 10) { nodes { name } }`. -/
structure Label where
  name : String
deriving DecidableEq

/-- A milestone: `milestone { title }`. -/
structure Milestone where
  title : String
deriving DecidableEq

/-- A discussion category: `category { name }`.  The source accesses
`disc['category']['name']` without a None-guard, so we keep the field
optional on the record and model the unguarded subscript separately. -/
structure Category where
  name : String
deriving DecidableEq

/-- GraphQL `IssueState`: the enum has exactly the values OPEN and CLOSED. -/
inductive IssueState where
  | OPEN
  | CLOSED
deriving DecidableEq

/-- A comment node of an issue: `comments(first: 50) { nodes { author body createdAt } }`. -/
structure IssueComment where
  author : Option Author
  body : Option String
  createdAt : String
deriving DecidableEq

/-- A reply node of a discussion comment:
`replies(first: 20) { nodes { author body createdAt } }`. -/
structure Reply where
  author : Option Author
  body : Option String
  createdAt : String
deriving DecidableEq

/-- A top-level discussion comment with its nested replies. -/
structure DiscComment where
  author : Option Author
  body : Option String
  createdAt : String
  replies : List Reply
deriving DecidableEq

/-- An issue node as selected by the query in `get_all_issues`. -/
structure Issue where
  number : Nat
  title : String
  body : Option String
  state : IssueState
  author : Option Author
  createdAt : String
  updatedAt : String
  closedAt : Option String
  url : String
  labels : List Label
  assignees : List Author
  milestone : Option Milestone
  comments : List IssueComment
deriving DecidableEq

/-- A discussion node as selected by the query in `get_all_discussions`. -/
structure Discussion where
  number : Nat
  title : String
  body : Option String
  author : Option Author
  createdAt : String
  updatedAt : String
  closed : Bool
  closedAt : Option String
  url : String
  category : Option Category
  labels : List Label
  comments : List DiscComment
deriving DecidableEq

/-- Python's `x or default` on an optional string: `None` and the empty
string are falsy, any other string is returned unchanged.  Used for
`issue.get('body') or "*No description provided*"` and the comment bodies. -/
def pyOr (x : Option String) (dflt : String) : String :=
  match x with
  | none => dflt
  | some s => if s = "" then dflt else s

/-- `issue['author']['login'] if issue['author'] else 'ghost'`. -/
def authorLogin (a : Option Author) : String :=
  match a with
  | some a => a.login
  | none => "ghost"

/-- `issue['state'].lower()`: the API delivers "OPEN"/"CLOSED". -/
def stateLower (s : IssueState) : String :=
  match s with
  | .OPEN => "open"
  | .CLOSED => "closed"

/-- `", ".join(names)`. -/
def joinComma (names : List String) : String :=
  String.intercalate ", " names

/-- The comment loop of `format_issue`: `for i, comment in enumerate(comments, 1)`,
emitting a blank line, a numbered heading, author, date, a blank line and the
body (with `comment.get('body') or "*Empty comment*"`). -/
def issueCommentsLines : Nat → List IssueComment → List String
  | _, [] => []
  | n, c :: cs =>
    let auth := authorLogin c.author
    ["", s!"### Comment {n}", s!"**Author**: {auth}", s!"**Date**: {c.createdAt}", "",
     pyOr c.body "*Empty comment*"] ++ issueCommentsLines (n + 1) cs

/-- The metadata block of `format_issue` (title line through the optional
milestone line), in the exact append order of the source. -/
def issueMetaLines (i : Issue) : List String :=
  let auth := authorLogin i.author
  let st := stateLower i.state
  [s!"# Issue #{i.number}: {i.title}", "", "## Metadata",
   s!"- **State**: {st}",
   s!"- **Author**: {auth}",
   s!"- **Created**: {i.createdAt}",
   s!"- **Updated**: {i.updatedAt}"]
  ++ (match i.closedAt with
      | some c => [s!"- **Closed**: {c}"]
      | none => [])
  ++ [s!"- **URL**: {i.url}"]
  ++ (if i.labels.isEmpty then []
      else
        let ls := joinComma (i.labels.map Label.name)
        [s!"- **Labels**: {ls}"])
  ++ (if i.assignees.isEmpty then []
      else
        let as := joinComma (i.assignees.map Author.login)
        [s!"- **Assignees**: {as}"])
  ++ (match i.milestone with
      | some m => [s!"- **Milestone**: {m.title}"]
      | none => [])

/-- The comments part of `format_issue`: emitted only when the comment list is
non-empty (`if comments:`). -/
def issueCommentsSection (cs : List IssueComment) : List String :=
  if cs.isEmpty then []
  else
    let n := cs.length
    ["", "---", "", s!"## Comments ({n})"] ++ issueCommentsLines 1 cs

/-- `format_issue` as a list of output lines (the source joins them with a
newline at the end). -/
def formatIssueLines (i : Issue) : List String :=
  issueMetaLines i
  ++ ["", "## Description", "", pyOr i.body "*No description provided*"]
  ++ issueCommentsSection i.comments

/-- `format_issue`: `"\n".join(lines)`. -/
def formatIssue (i : Issue) : String :=
  String.intercalate "\n" (formatIssueLines i)

/-- Failure of a Python subscript on `None`: `disc['category']['name']`
raises a `TypeError` when `category` is `None`. -/
inductive DictError where
  | noneSubscript
deriving DecidableEq

/-- The unguarded access `disc['category']['name']`. -/
def categoryName (c : Option Category) : Except DictError String :=
  match c with
  | some c => .ok c.name
  | none => .error .noneSubscript

/-- `len(comments) + sum(len(c.get('replies', \x7b\x7d).get('nodes', [])) for c in comments)`:
the count printed in the discussion comments header. -/
def totalComments (cs : List DiscComment) : Nat :=
  cs.length + (cs.map fun c => c.replies.length).sum

/-- The inner reply loop of `format_discussion`: each reply increments the
shared counter and is emitted right after its parent comment.  `n` is the
counter value before the first reply of the batch. -/
def replyLines : Nat → List Reply → List String
  | _, [] => []
  | n, r :: rs =>
    let auth := authorLogin r.author
    let m := n + 1
    ["", s!"### Comment {m} (reply)", s!"**Author**: {auth}", s!"**Date**: {r.createdAt}", "",
     pyOr r.body "*Empty reply*"] ++ replyLines (n + 1) rs

/-- The comment loop of `format_discussion`: a single mutable `comment_num`
counter threads through top-level comments and their replies.  `n` is the
counter value before the first comment of the batch. -/
def discCommentLines : Nat → List DiscComment → List String
  | _, [] => []
  | n, c :: cs =>
    let auth := authorLogin c.author
    let m := n + 1
    ["", s!"### Comment {m}", s!"**Author**: {auth}", s!"**Date**: {c.createdAt}", "",
     pyOr c.body "*Empty comment*"]
    ++ replyLines (n + 1) c.replies
    ++ discCommentLines (n + 1 + c.replies.length) cs

/-- The comments part of `format_discussion`: emitted only when the comment
list is non-empty. -/
def discCommentsSection (cs : List DiscComment) : List String :=
  if cs.isEmpty then []
  else
    let t := totalComments cs
    ["", "---", "", s!"## Comments ({t})"] ++ discCommentLines 0 cs

/-- The metadata block of `format_discussion`, given the category name the
source reads with `disc['category']['name']`. -/
def discMetaLines (d : Discussion) (catName : String) : List String :=
  let auth := authorLogin d.author
  let st := if d.closed then "closed" else "open"
  [s!"# Discussion #{d.number}: {d.title}", "", "## Metadata",
   s!"- **State**: {st}",
   s!"- **Author**: {auth}",
   s!"- **Category**: {catName}",
   s!"- **Created**: {d.createdAt}",
   s!"- **Updated**: {d.updatedAt}"]
  ++ (match d.closedAt with
      | some c => [s!"- **Closed**: {c}"]
      | none => [])
  ++ [s!"- **URL**: {d.url}"]
  ++ (if d.labels.isEmpty then []
      else
        let ls := joinComma (d.labels.map Label.name)
        [s!"- **Labels**: {ls}"])

/-- `format_discussion` as a list of output lines.  The function is fallible
because the source dereferences `disc['category']['name']` unconditionally. -/
def formatDiscussionLines (d : Discussion) : Except DictError (List String) :=
  match categoryName d.category with
  | .error e => .error e
  | .ok catName =>
    .ok (discMetaLines d catName
      ++ ["", "## Description", "", pyOr d.body "*No description provided*"]
      ++ discCommentsSection d.comments)

/-- `format_discussion`: `"\n".join(lines)` when the category access succeeds. -/
def formatDiscussion (d : Discussion) : Except DictError String :=
  match formatDiscussionLines d with
  | .error e => .error e
  | .ok ls => .ok (String.intercalate "\n" ls)

/-- One entry of the flattened depth-first comment+reply sequence of a
discussion (specification-side view of the numbering). -/
structure FlatEntry where
  isReply : Bool
  author : Option Author
  createdAt : String
  body : Option String
deriving DecidableEq

/-- A top-level comment as a flat entry. -/
def commentEntry (c : DiscComment) : FlatEntry :=
  ⟨false, c.author, c.createdAt, c.body⟩

/-- A reply as a flat entry. -/
def replyEntry (r : Reply) : FlatEntry :=
  ⟨true, r.author, r.createdAt, r.body⟩

/-- The flattened depth-first sequence: each top-level comment followed
immediately by its replies, then the subsequent top-level comments. -/
def flattenComments (cs : List DiscComment) : List FlatEntry :=
  cs.flatMap fun c => commentEntry c :: c.replies.map replyEntry

/-- Specification-side rendering of the flat entry numbered `n`: heading
`### Comment n`, with the reply marker exactly on replies. -/
def entryRender (n : Nat) (e : FlatEntry) : List String :=
  let auth := authorLogin e.author
  let heading := if e.isReply then s!"### Comment {n} (reply)" else s!"### Comment {n}"
  ["", heading, s!"**Author**: {auth}", s!"**Date**: {e.createdAt}", "",
   pyOr e.body (if e.isReply then "*Empty reply*" else "*Empty comment*")]

/-- Specification-side comment block: the flattened sequence is numbered
strictly sequentially starting at 1. -/
def specCommentLines (cs : List DiscComment) : List String :=
  (List.enumFrom 1 (flattenComments cs)).flatMap fun p => entryRender p.1 p.2

/-- Specification-side rendering of the issue comment numbered `n`. -/
def issueEntryRender (n : Nat) (c : IssueComment) : List String :=
  let auth := authorLogin c.author
  ["", s!"### Comment {n}", s!"**Author**: {auth}", s!"**Date**: {c.createdAt}", "",
   pyOr c.body "*Empty comment*"]

/-- Specification-side issue comment block: the comment sequence is numbered
strictly sequentially starting at 1. -/
def specIssueCommentLines (cs : List IssueComment) : List String :=
  (List.enumFrom 1 cs).flatMap fun p => issueEntryRender p.1 p.2

/-- Order field of a GraphQL `orderBy` argument appearing in a query. -/
inductive OrderField where
  | CREATED_AT
deriving DecidableEq

/-- Order direction of a GraphQL `orderBy` argument. -/
inductive OrderDirection where
  | ASC
  | DESC
deriving DecidableEq

/-- An `orderBy` argument: `orderBy: \x7bfield: ..., direction: ...\x7d`. -/
structure OrderSpec where
  field : OrderField
  direction : OrderDirection
deriving DecidableEq

/-- The pagination parameters of one page request, transcribed from a query
string: the `first:` page size and the optional `orderBy:` argument. -/
structure PageQuery where
  pageSize : Nat
  orderBy : Option OrderSpec
deriving DecidableEq

/-- The issues listing request (source line 102):
`issues(first: 50, after: $cursor, orderBy: \x7bfield: CREATED_AT, direction: ASC\x7d)`. -/
def issuesPageQuery : PageQuery :=
  { pageSize := 50, orderBy := some { field := .CREATED_AT, direction := .ASC } }

/-- The discussions listing request (source line 169):
`discussions(first: 50, after: $cursor)` — no `orderBy` argument at all. -/
def discussionsPageQuery : PageQuery :=
  { pageSize := 50, orderBy := none }

/-- The nested `first:` bounds of the issues query: `labels(first: 10)`,
`assignees(first: 10)`, `comments(first: 50)` — with no nested pagination. -/
structure IssueQueryBounds where
  commentsFirst : Nat
  labelsFirst : Nat
  assigneesFirst : Nat
deriving DecidableEq

/-- Bounds transcribed from the `get_all_issues` query text. -/
def issuesQueryBounds : IssueQueryBounds :=
  { commentsFirst := 50, labelsFirst := 10, assigneesFirst := 10 }

/-- The nested `first:` bounds of the discussions query:
`labels(first: 10)`, `comments(first: 50)`, `replies(first: 20)`. -/
structure DiscussionQueryBounds where
  commentsFirst : Nat
  repliesFirst : Nat
  labelsFirst : Nat
deriving DecidableEq

/-- Bounds transcribed from the `get_all_discussions` query text. -/
def discussionsQueryBounds : DiscussionQueryBounds :=
  { commentsFirst := 50, repliesFirst := 20, labelsFirst := 10 }

/-- GraphQL `first: n` semantics on a connection: only the first `n` nodes of
the server-side list are returned, and the queries paginate no nested
connection, so nodes beyond the bound are never fetched. -/
def issueNodeFromServer (s : Issue) : Issue :=
  { s with
    labels := s.labels.take issuesQueryBounds.labelsFirst,
    assignees := s.assignees.take issuesQueryBounds.assigneesFirst,
    comments := s.comments.take issuesQueryBounds.commentsFirst }

/-- GraphQL `first: n` semantics for a discussion node: the comment connection
is cut at 50 and each comment's reply connection at 20. -/
def discussionNodeFromServer (s : Discussion) : Discussion :=
  { s with
    labels := s.labels.take discussionsQueryBounds.labelsFirst,
    comments := (s.comments.take discussionsQueryBounds.commentsFirst).map
      fun c => { c with replies := c.replies.take discussionsQueryBounds.repliesFirst } }

/-- One service response to a page request, as discriminated by
`graphql_request`: an HTTP 403 (rate limit, with the `X-RateLimit-Reset`
header value), another non-success HTTP status (`raise_for_status`), a body
with a GraphQL `errors` key (the function returns `None`), or a data page
with its nodes and the `pageInfo.hasNextPage` flag. -/
inductive Resp (α : Type) where
  | rateLimited (resetTime : Nat)
  | httpError (status : Nat)
  | gqlErrors
  | page (nodes : List α) (hasNextPage : Bool)
deriving DecidableEq

/-- How a run terminates abnormally: `SystemExit(1)` on a 403, an HTTP
exception from `raise_for_status`, or the modelling artifact of running out
of scripted responses. -/
inductive RunError where
  | rateLimited (resetTime : Nat)
  | httpFailure (status : Nat)
  | outOfResponses
deriving DecidableEq

/-- The page-fetch loop shared by `get_all_issues` and `get_all_discussions`:
request pages, append nodes to the accumulator, break (returning the
accumulator) when `graphql_request` returns `None` (GraphQL errors) or when
`hasNextPage` is false; a 403 raises `SystemExit(1)` and any other
non-success status raises.  The service is modelled as the list of responses
it gives to the successive requests. -/
def fetchLoop : List (Resp α) → List α → Except RunError (List α)
  | [], _ => .error .outOfResponses
  | .rateLimited t :: _, _ => .error (.rateLimited t)
  | .httpError s :: _, _ => .error (.httpFailure s)
  | .gqlErrors :: _, acc => .ok acc
  | .page nodes true :: rs, acc => fetchLoop rs (acc ++ nodes)
  | .page nodes false :: _, acc => .ok (acc ++ nodes)

/-- Package a list of pages as the response sequence of a service that sets
`hasNextPage` on every page except the last. -/
def pagesToResps : List (List α) → List (Resp α)
  | [] => []
  | [p] => [.page p false]
  | p :: ps => .page p true :: pagesToResps ps

/-- The allow-list of `save_items`: `c.isalnum() or c in " -_"`. -/
def keepChar (c : Char) : Bool :=
  c.isAlphanum || c = ' ' || c = '-' || c = '_'

/-- One character of the sanitizing join: kept if on the allow-list,
replaced by an underscore otherwise. -/
def subChar (c : Char) : Char :=
  if keepChar c then c else '_'

/-- Python `str.strip()` on a character list: drop whitespace from both ends. -/
def trimChars (l : List Char) : List Char :=
  ((l.dropWhile Char.isWhitespace).reverse.dropWhile Char.isWhitespace).reverse

/-- `safe_title`: substitute characters outside the allow-list, truncate to 50
characters, strip surrounding whitespace (`safe_title[:50].strip()`). -/
def sanitizeTitle (t : List Char) : List Char :=
  trimChars ((t.map subChar).take 50)

/-- Decimal digits of a natural number, least fuel first: the structural
helper behind the `\x7bnum:04d\x7d` format specifier. -/
def natDigitsAux : Nat → Nat → List Char
  | 0, _ => []
  | fuel + 1, n =>
    if n < 10 then [Char.ofNat (48 + n)]
    else natDigitsAux fuel (n / 10) ++ [Char.ofNat (48 + n % 10)]

/-- Decimal representation of a natural number as characters. -/
def natDigits (n : Nat) : List Char :=
  natDigitsAux (n + 1) n

/-- `\x7bnum:04d\x7d`: zero-pad on the left to width 4; numbers with more than
four digits are printed in full. -/
def pad4 (n : Nat) : List Char :=
  List.replicate (4 - (natDigits n).length) '0' ++ natDigits n

/-- `f"\x7bprefix\x7d_\x7bnum:04d\x7d_\x7bsafe_title\x7d.txt"` from `save_items`. -/
def itemFilename (pfx : String) (num : Nat) (title : List Char) : List Char :=
  pfx.toList ++ ['_'] ++ pad4 num ++ ['_'] ++ sanitizeTitle title ++ ".txt".toList

/-- The open-issues filter of `create_issue_index`: `i['state'] == 'OPEN'`. -/
def openIssues (issues : List Issue) : List Issue :=
  issues.filter fun i => i.state = .OPEN

/-- The closed-issues filter of `create_issue_index`: `i['state'] == 'CLOSED'`. -/
def closedIssues (issues : List Issue) : List Issue :=
  issues.filter fun i => i.state = .CLOSED

/-- The open-discussions filter of `create_discussion_index`: `not d['closed']`. -/
def openDiscussions (ds : List Discussion) : List Discussion :=
  ds.filter fun d => !d.closed

/-- The closed-discussions filter of `create_discussion_index`: `d['closed']`. -/
def closedDiscussions (ds : List Discussion) : List Discussion :=
  ds.filter fun d => d.closed

/-- One listing line of the issue index:
`[STATE] #N: title [labels]`, the bracketed label list present only when the
joined label string is non-empty (Python truthiness of the joined string). -/
def issueIndexLine (i : Issue) : String :=
  let st := match i.state with
    | .OPEN => "OPEN"
    | .CLOSED => "CLOSED"
  let labels := joinComma (i.labels.map Label.name)
  let labelStr := if labels = "" then "" else s!" [{labels}]"
  s!"[{st}] #{i.number}: {i.title}{labelStr}"

/-- `create_issue_index` as output lines; `now` stands for
`datetime.now().isoformat()`, threaded explicitly. -/
def createIssueIndexLines (now : String) (issues : List Issue) : List String :=
  let total := issues.length
  let op := (openIssues issues).length
  let cl := (closedIssues issues).length
  [s!"# Issue Index for {REPO_OWNER}/{REPO_NAME}",
   s!"Generated: {now}",
   s!"Total issues: {total}", "",
   s!"Open: {op}",
   s!"Closed: {cl}", "",
   "## All Issues", ""]
  ++ issues.map issueIndexLine

/-- `create_issue_index` file content: each written chunk ends in a newline. -/
def createIssueIndex (now : String) (issues : List Issue) : String :=
  String.intercalate "\n" (createIssueIndexLines now issues) ++ "\n"

/-- Insert a discussion into the category grouping, preserving the dict's
first-occurrence key order (`categories[cat].append(disc)`). -/
def addToGroup (cat : String) (d : Discussion) :
    List (String × List Discussion) → List (String × List Discussion)
  | [] => [(cat, [d])]
  | (c, l) :: rest =>
    if c = cat then (c, l ++ [d]) :: rest else (c, l) :: addToGroup cat d rest

/-- The grouping loop of `create_discussion_index`: reads
`disc['category']['name']` for every discussion, so it fails on the first
discussion whose category is absent. -/
def groupByCategoryAux (acc : List (String × List Discussion)) :
    List Discussion → Except DictError (List (String × List Discussion))
  | [] => .ok acc
  | d :: ds =>
    match categoryName d.category with
    | .error e => .error e
    | .ok c => groupByCategoryAux (addToGroup c d acc) ds

/-- `sorted(categories.items())`: ascending by category name. -/
def sortGroups (gs : List (String × List Discussion)) :
    List (String × List Discussion) :=
  gs.mergeSort fun a b => a.1 ≤ b.1

/-- One listing line of the discussion index. -/
def discIndexLine (d : Discussion) : String :=
  let st := if d.closed then "CLOSED" else "OPEN"
  s!"[{st}] #{d.number}: {d.title}"

/-- `create_discussion_index` as output lines; fallible because the grouping
dereferences every discussion's category. -/
def createDiscussionIndexLines (now : String) (ds : List Discussion) :
    Except DictError (List String) :=
  match groupByCategoryAux [] ds with
  | .error e => .error e
  | .ok groups =>
    let total := ds.length
    let op := (openDiscussions ds).length
    let cl := (closedDiscussions ds).length
    .ok ([s!"# Discussion Index for {REPO_OWNER}/{REPO_NAME}",
          s!"Generated: {now}",
          s!"Total discussions: {total}", "",
          s!"Open: {op}",
          s!"Closed: {cl}", ""]
      ++ (sortGroups groups).flatMap fun g =>
          let n := g.2.length
          [s!"## {g.1} ({n})", ""] ++ g.2.map discIndexLine ++ [""])

/-- The filename `save_items` derives for one issue. -/
def issueFileName (i : Issue) : String :=
  String.mk (itemFilename "issue" i.number i.title.toList)

/-- The outcome of running one collection's branch of `main`: the process
exit code and the files written (name, content). -/
structure Outcome where
  exitCode : Nat
  files : List (String × String)
deriving DecidableEq

/-- The issues branch of `main`: run the page-fetch loop; on an abnormal
termination the process exits with code 1 having written nothing; on normal
completion every accumulated issue is rendered and written, then the index. -/
def runIssues (now : String) (rs : List (Resp Issue)) : Outcome :=
  match fetchLoop rs [] with
  | .error _ => { exitCode := 1, files := [] }
  | .ok issues =>
    { exitCode := 0,
      files := issues.map (fun i => (issueFileName i, formatIssue i))
        ++ [("_index.txt", createIssueIndex now issues)] }

/-- The flag logic of `main`:
`do_issues = args.issues or not args.discussions`;
`do_discussions = args.discussions or not args.issues`.
Returns (download issues?, download discussions?). -/
def selectedWork (issuesFlag discussionsFlag : Bool) : Bool × Bool :=
  (issuesFlag || !discussionsFlag, discussionsFlag || !issuesFlag)

/-- A string is a rendered comment heading when it begins with the fixed
heading text emitted by the renderers. -/
def isCommentHeading (s : String) : Bool :=
  s.toList.take 12 = "### Comment ".toList

/-- Description text as the specification words it: the raw body verbatim when
it is non-empty, the fixed placeholder when the body is empty or absent. -/
def descriptionSpec (b : Option String) : String :=
  if b.getD "" = "" then "*No description provided*" else b.getD ""

/-! ### Concrete inputs used when checking the claims -/

/-- The worked example of the specification: issue number 42, title
"Fix crash on load!!", empty body, zero comments. -/
def exIssue42 : Issue :=
  { number := 42, title := "Fix crash on load!!", body := some "",
    state := .OPEN, author := some ⟨"alice"⟩,
    createdAt := "2024-01-01T00:00:00Z", updatedAt := "2024-01-02T00:00:00Z",
    closedAt := none, url := "https://github.com/molstar/molstar/issues/42",
    labels := [], assignees := [], milestone := none, comments := [] }

/-- The worked example of the specification: a discussion with two top-level
comments, the first carrying one reply. -/
def exDiscC3 : Discussion :=
  { number := 7, title := "How to load maps", body := some "Body text",
    author := some ⟨"bob"⟩, createdAt := "2024-01-01", updatedAt := "2024-01-02",
    closed := false, closedAt := none, url := "u",
    category := some ⟨"Q&A"⟩, labels := [],
    comments := [
      { author := some ⟨"c1"⟩, body := some "first", createdAt := "t1",
        replies := [{ author := some ⟨"r1"⟩, body := some "rep", createdAt := "t2" }] },
      { author := some ⟨"c2"⟩, body := some "second", createdAt := "t3", replies := [] }] }

/-- An issue with two comments, used to instantiate the issue-side comment
numbering. -/
def exIssueC3 : Issue :=
  { number := 9, title := "n", body := some "b", state := .OPEN,
    author := some ⟨"al"⟩, createdAt := "2024-01-01", updatedAt := "2024-01-02",
    closedAt := none, url := "u", labels := [], assignees := [], milestone := none,
    comments := [
      { author := some ⟨"u1"⟩, body := some "one", createdAt := "t1" },
      { author := some ⟨"u2"⟩, body := some "two", createdAt := "t2" }] }

/-- A single issue used to instantiate the page-ordering statement. -/
def exIssueC1 : Issue :=
  { number := 1, title := "t", body := none, state := .OPEN, author := none,
    createdAt := "2020-01-01", updatedAt := "2020-01-01", closedAt := none,
    url := "u", labels := [], assignees := [], milestone := none, comments := [] }

/-- A server-side issue carrying 51 comments, one more than the query bound. -/
def exServerIssue51 : Issue :=
  { number := 2, title := "big", body := none, state := .OPEN, author := none,
    createdAt := "2020-01-01", updatedAt := "2020-01-01", closedAt := none,
    url := "u", labels := [], assignees := [], milestone := none,
    comments := List.replicate 51 { author := none, body := some "hi", createdAt := "t" } }

/-- A discussion whose category is absent. -/
def exDiscNoCat : Discussion :=
  { number := 3, title := "nc", body := none, author := none,
    createdAt := "2020-01-01", updatedAt := "2020-01-01", closed := false,
    closedAt := none, url := "u", category := none, labels := [], comments := [] }

/-- A discussion whose category is present. -/
def exDiscWithCat : Discussion :=
  { number := 4, title := "wc", body := none, author := none,
    createdAt := "2020-01-01", updatedAt := "2020-01-01", closed := false,
    closedAt := none, url := "u", category := some ⟨"General"⟩, labels := [],
    comments := [] }

/-! ### Helper lemmas about the comment-numbering loop -/

theorem enumFrom_append (l₁ l₂ : List α) (n : Nat) :
    List.enumFrom n (l₁ ++ l₂)
      = List.enumFrom n l₁ ++ List.enumFrom (n + l₁.length) l₂ := by
  induction l₁ generalizing n with
  | nil => simp [List.enumFrom]
  | cons a t ih =>
    simp [List.enumFrom, ih (n + 1), Nat.add_comm, Nat.add_assoc, Nat.add_left_comm]

theorem replyLines_eq_spec (rs : List Reply) (n : Nat) :
    replyLines n rs
      = (List.enumFrom (n + 1) (rs.map replyEntry)).flatMap
          fun p => entryRender p.1 p.2 := by
  induction rs generalizing n with
  | nil => simp [replyLines, List.enumFrom]
  | cons r t ih =>
    simp only [replyLines, List.map_cons, List.enumFrom, List.flatMap_cons, ih (n + 1)]
    rfl

theorem discCommentLines_eq_spec (cs : List DiscComment) (n : Nat) :
    discCommentLines n cs
      = (List.enumFrom (n + 1) (flattenComments cs)).flatMap
          fun p => entryRender p.1 p.2 := by
  induction cs generalizing n with
  | nil => simp [discCommentLines, flattenComments, List.enumFrom]
  | cons c t ih =>
    have hflat : flattenComments (c :: t)
        = commentEntry c :: (c.replies.map replyEntry ++ flattenComments t) := by
      simp [flattenComments]
    rw [hflat]
    simp only [List.enumFrom, enumFrom_append, List.flatMap_cons, List.flatMap_append,
      List.length_map]
    have harith : n + 1 + 1 + c.replies.length = n + 1 + c.replies.length + 1 := by omega
    rw [harith]
    simp only [discCommentLines, ih, replyLines_eq_spec]
    simp [entryRender, commentEntry, List.append_assoc]

theorem discCommentLines_eq_specCommentLines (cs : List DiscComment) :
    discCommentLines 0 cs = specCommentLines cs :=
  discCommentLines_eq_spec cs 0

theorem issueCommentsLines_eq_spec (cs : List IssueComment) (n : Nat) :
    issueCommentsLines n cs
      = (List.enumFrom n cs).flatMap fun p => issueEntryRender p.1 p.2 := by
  induction cs generalizing n with
  | nil => simp [issueCommentsLines, List.enumFrom]
  | cons c t ih =>
    simp only [issueCommentsLines, List.enumFrom, List.flatMap_cons, ih]
    rfl

theorem flattenComments_length (cs : List DiscComment) :
    (flattenComments cs).length = totalComments cs := by
  induction cs with
  | nil => simp [flattenComments, totalComments]
  | cons c t ih =>
    have hflat : flattenComments (c :: t)
        = (commentEntry c :: c.replies.map replyEntry) ++ flattenComments t := by
      simp [flattenComments]
    rw [hflat, List.length_append, ih]
    simp only [List.length_cons, List.length_map, totalComments, List.map_cons, List.sum_cons]
    omega

/-! ### Helper lemmas about the page-fetch loop -/

theorem fetchLoop_consume_pages (pages : List (List α)) (rs : List (Resp α))
    (acc : List α) :
    fetchLoop ((pages.map fun p => Resp.page p true) ++ rs) acc
      = fetchLoop rs (acc ++ pages.flatten) := by
  induction pages generalizing acc with
  | nil => simp
  | cons p ps ih =>
    simp only [List.map_cons, List.cons_append, fetchLoop, List.flatten_cons]
    rw [show acc ++ (p ++ ps.flatten) = (acc ++ p) ++ ps.flatten from
      (List.append_assoc _ _ _).symm]
    exact ih (acc ++ p)

theorem fetchLoop_pagesToResps (pages : List (List α)) (acc : List α)
    (h : pages ≠ []) :
    fetchLoop (pagesToResps pages) acc = .ok (acc ++ pages.flatten) := by
  induction pages generalizing acc with
  | nil => exact absurd rfl h
  | cons p ps ih =>
    cases ps with
    | nil => simp [pagesToResps, fetchLoop]
    | cons q qs =>
      simp only [pagesToResps, fetchLoop, List.flatten_cons]
      rw [ih (acc ++ p) (by simp)]
      simp [List.append_assoc]

/-! ### Helper lemmas about the index counts -/

theorem length_open_add_closed_issues (issues : List Issue) :
    issues.length = (openIssues issues).length + (closedIssues issues).length := by
  induction issues with
  | nil => simp [openIssues, closedIssues]
  | cons i t ih =>
    cases hs : i.state <;>
      simp [openIssues, closedIssues, List.filter_cons, hs] at * <;> omega

theorem length_open_add_closed_discussions (ds : List Discussion) :
    ds.length = (openDiscussions ds).length + (closedDiscussions ds).length := by
  induction ds with
  | nil => simp [openDiscussions, closedDiscussions]
  | cons d t ih =>
    cases hc : d.closed <;>
      simp [openDiscussions, closedDiscussions, List.filter_cons, hc] at * <;> omega

/-! ### Helper lemmas about filename sanitization -/

theorem subChar_of_keep {c : Char} (h : keepChar c = true) : subChar c = c := by
  simp [subChar, h]

theorem keepChar_subChar (c : Char) : keepChar (subChar c) = true := by
  by_cases h : keepChar c = true
  · rw [subChar_of_keep h]; exact h
  · have hu : subChar c = '_' := by simp [subChar, h]
    rw [hu]; decide

theorem trimChars_eq_rdropWhile (l : List Char) :
    trimChars l = (l.dropWhile Char.isWhitespace).rdropWhile Char.isWhitespace := rfl

theorem trimChars_sublist (l : List Char) : List.Sublist (trimChars l) l := by
  rw [trimChars_eq_rdropWhile]
  exact ((List.rdropWhile_prefix _ _).sublist).trans (List.dropWhile_sublist _)

theorem trimChars_length_le (l : List Char) : (trimChars l).length ≤ l.length :=
  (trimChars_sublist l).length_le

theorem dropWhile_trimChars (l : List Char) :
    (trimChars l).dropWhile Char.isWhitespace = trimChars l := by
  rw [trimChars_eq_rdropWhile]
  rcases hx : (l.dropWhile Char.isWhitespace).rdropWhile Char.isWhitespace with _ | ⟨a, t⟩
  · rfl
  · have hpre : (l.dropWhile Char.isWhitespace).rdropWhile Char.isWhitespace
        <+: l.dropWhile Char.isWhitespace := List.rdropWhile_prefix _ _
    rw [hx] at hpre
    have hlen : 0 < (l.dropWhile Char.isWhitespace).length := by
      have := hpre.length_le
      simp at this
      omega
    have hhead : ¬ Char.isWhitespace ((l.dropWhile Char.isWhitespace).get ⟨0, hlen⟩) := by
      have hself : (l.dropWhile Char.isWhitespace).dropWhile Char.isWhitespace
          = l.dropWhile Char.isWhitespace := List.dropWhile_idempotent _ _
      exact (List.dropWhile_eq_self_iff.mp hself) hlen
    have hget : (l.dropWhile Char.isWhitespace).get ⟨0, hlen⟩ = a := by
      have h0 : 0 < ((a :: t) : List Char).length := by simp
      simpa using (List.IsPrefix.getElem hpre h0).symm
    rw [hget] at hhead
    rw [List.dropWhile_cons_of_neg (by simpa using hhead)]

theorem trimChars_idem (l : List Char) : trimChars (trimChars l) = trimChars l := by
  rw [trimChars_eq_rdropWhile (trimChars l), dropWhile_trimChars,
    trimChars_eq_rdropWhile l]
  exact List.rdropWhile_idempotent _ _

theorem sanitizeTitle_all_keep (t : List Char) :
    ∀ c ∈ sanitizeTitle t, keepChar c = true := by
  intro c hc
  have h1 : c ∈ (t.map subChar).take 50 :=
    (trimChars_sublist _).subset hc
  have h2 : c ∈ t.map subChar := (List.take_sublist _ _).subset h1
  rcases List.mem_map.mp h2 with ⟨a, _, rfl⟩
  exact keepChar_subChar a

theorem sanitizeTitle_length_le (t : List Char) : (sanitizeTitle t).length ≤ 50 := by
  calc (sanitizeTitle t).length ≤ ((t.map subChar).take 50).length :=
        trimChars_length_le _
    _ ≤ 50 := by simp

theorem map_subChar_of_keep {l : List Char} (h : ∀ c ∈ l, keepChar c = true) :
    l.map subChar = l := by
  induction l with
  | nil => rfl
  | cons a t ih =>
    simp only [List.map_cons]
    rw [subChar_of_keep (h a (by simp)), ih fun c hc => h c (by simp [hc])]

theorem sanitizeTitle_idem (t : List Char) :
    sanitizeTitle (sanitizeTitle t) = sanitizeTitle t := by
  show trimChars (((sanitizeTitle t).map subChar).take 50) = sanitizeTitle t
  rw [map_subChar_of_keep (sanitizeTitle_all_keep t),
    List.take_of_length_le (sanitizeTitle_length_le t)]
  exact trimChars_idem _

/-! ### Helper lemmas about the zero-padded number -/

theorem natDigitsAux_length_le :
    ∀ (fuel k n : Nat), n < 10 ^ (k + 1) → (natDigitsAux fuel n).length ≤ k + 1 := by
  intro fuel
  induction fuel with
  | zero => intro k n _; simp [natDigitsAux]
  | succ f ih =>
    intro k n hn
    unfold natDigitsAux
    by_cases h10 : n < 10
    · rw [if_pos h10]
      simp only [List.length_cons, List.length_nil]
      omega
    · rw [if_neg h10]
      cases k with
      | zero => omega
      | succ k =>
        have hdiv : n / 10 < 10 ^ (k + 1) := by
          rw [Nat.div_lt_iff_lt_mul (by omega)]
          calc n < 10 ^ (k + 1 + 1) := hn
            _ = 10 ^ (k + 1) * 10 := by ring
        have := ih k (n / 10) hdiv
        simp only [List.length_append, List.length_cons, List.length_nil]
        omega

theorem pad4_length_of_lt {n : Nat} (h : n < 10000) : (pad4 n).length = 4 := by
  have hd : (natDigits n).length ≤ 4 := by
    have : n < 10 ^ (3 + 1) := by norm_num; omega
    exact natDigitsAux_length_le (n + 1) 3 n this
  simp only [pad4, List.length_append, List.length_replicate]
  omega

theorem itemFilename_length_le {pfx : String} {n : Nat} {t : List Char}
    (h : n < 10000) :
    (itemFilename pfx n t).length ≤ 4 + 1 + pfx.length + 1 + 50 + 4 := by
  simp only [itemFilename, List.length_append, pad4_length_of_lt h]
  have h1 : pfx.toList.length = pfx.length := rfl
  have h2 : (sanitizeTitle t).length ≤ 50 := sanitizeTitle_length_le t
  have h3 : ".txt".toList.length = 4 := by decide
  simp only [h1, h3, List.length_cons, List.length_nil]
  omega

/-! ### Helper lemmas about the description text and comment-tree truncation -/

theorem pyOr_eq_descriptionSpec (b : Option String) :
    pyOr b "*No description provided*" = descriptionSpec b := by
  cases b with
  | none => rfl
  | some s =>
    by_cases h : s = "" <;> simp [pyOr, descriptionSpec, Option.getD, h]

theorem map_eq_self_iff_forall {f : α → α} {l : List α} :
    l.map f = l ↔ ∀ c ∈ l, f c = c := by
  induction l with
  | nil => simp
  | cons a t ih =>
    simp only [List.map_cons, List.cons.injEq, List.mem_cons, ih]
    constructor
    · rintro ⟨h1, h2⟩ c hc
      rcases hc with rfl | hc
      · exact h1
      · exact h2 c hc
    · intro h
      exact ⟨h a (Or.inl rfl), fun c hc => h c (Or.inr hc)⟩

theorem issueNode_comments_complete_iff (s : Issue) :
    (issueNodeFromServer s).comments = s.comments ↔ s.comments.length ≤ 50 := by
  show s.comments.take 50 = s.comments ↔ _
  exact List.take_eq_self_iff _

theorem discussionNode_comments_complete_iff (s : Discussion) :
    (discussionNodeFromServer s).comments = s.comments
      ↔ s.comments.length ≤ 50 ∧ ∀ c ∈ s.comments, c.replies.length ≤ 20 := by
  show (s.comments.take 50).map
      (fun c => { c with replies := c.replies.take 20 }) = s.comments ↔ _
  constructor
  · intro h
    have hlen : s.comments.length ≤ 50 := by
      have := congrArg List.length h
      simp only [List.length_map, List.length_take] at this
      omega
    have htake : s.comments.take 50 = s.comments := (List.take_eq_self_iff _).mpr hlen
    rw [htake] at h
    refine ⟨hlen, fun c hc => ?_⟩
    have := map_eq_self_iff_forall.mp h c hc
    have hrep : c.replies.take 20 = c.replies := by
      have := congrArg DiscComment.replies this
      simpa using this
    have := congrArg List.length hrep
    simp only [List.length_take] at this
    omega
  · rintro ⟨hlen, hrep⟩
    rw [(List.take_eq_self_iff _).mpr hlen]
    apply map_eq_self_iff_forall.mpr
    intro c hc
    have : c.replies.take 20 = c.replies :=
      (List.take_eq_self_iff _).mpr (hrep c hc)
    simp [this]

/-! ### Helper lemma: the first components of an enumeration are a gap-free range -/

theorem enumFrom_map_fst (l : List α) (n : Nat) :
    (List.enumFrom n l).map Prod.fst = List.range' n l.length := by
  induction l generalizing n with
  | nil => simp [List.enumFrom]
  | cons a t ih => simp [List.enumFrom, List.range'_succ, ih]

/-! ## The claims -/

/-- C10: invoking the command with both `--issues` and `--discussions`
selects both collections, exactly as invoking it with neither flag does. -/
theorem claim_C10 :
    selectedWork true true = (true, true)
    ∧ selectedWork false false = (true, true)
    ∧ selectedWork true true = selectedWork false false := by
  decide

/-- C6: in each generated index document the reported total count (line 2 of
the index) equals the reported open count plus the reported closed count
(lines 4 and 5), for the issue index and the discussion index alike. -/
theorem claim_C6 (now : String) (issues : List Issue) (ds : List Discussion) :
    (createIssueIndexLines now issues)[2]?
        = some s!"Total issues: {(openIssues issues).length + (closedIssues issues).length}"
    ∧ (createIssueIndexLines now issues)[4]? = some s!"Open: {(openIssues issues).length}"
    ∧ (createIssueIndexLines now issues)[5]? = some s!"Closed: {(closedIssues issues).length}"
    ∧ ∀ gls, createDiscussionIndexLines now ds = .ok gls →
        gls[2]? = some s!"Total discussions: {(openDiscussions ds).length + (closedDiscussions ds).length}"
        ∧ gls[4]? = some s!"Open: {(openDiscussions ds).length}"
        ∧ gls[5]? = some s!"Closed: {(closedDiscussions ds).length}" := by
  refine ⟨?_, rfl, rfl, ?_⟩
  · rw [← length_open_add_closed_issues issues]
    rfl
  · intro gls h
    unfold createDiscussionIndexLines at h
    cases hg : groupByCategoryAux [] ds with
    | error e => rw [hg] at h; cases h
    | ok g =>
      rw [hg] at h
      injection h with h2
      subst h2
      refine ⟨?_, rfl, rfl⟩
      rw [← length_open_add_closed_discussions ds]
      rfl

/-- C6 witness: the discussion half of `claim_C6` applied to the empty
collection. -/
theorem claim_C6_witness :
    ∃ gls, createDiscussionIndexLines "now" ([] : List Discussion) = .ok gls ∧
      gls[2]? = some s!"Total discussions: {(openDiscussions ([] : List Discussion)).length + (closedDiscussions ([] : List Discussion)).length}" := by
  obtain ⟨h1, h2, h3, h4⟩ := claim_C6 "now" ([] : List Issue) ([] : List Discussion)
  exact ⟨_, rfl, (h4 _ rfl).1⟩

/-- C4: if any page request of the bulk fetch loop receives a rate-limit
response, the loop terminates with that rate-limit error (carrying the
reported reset time) and the run exits with code 1 having written zero
output files — items from pages fetched before the rate limit are not
saved. -/
theorem claim_C4 (now : String) (goodPages : List (List Issue)) (t : Nat)
    (rest : List (Resp Issue)) :
    fetchLoop ((goodPages.map fun p => Resp.page p true) ++ Resp.rateLimited t :: rest)
        ([] : List Issue)
      = .error (.rateLimited t)
    ∧ runIssues now ((goodPages.map fun p => Resp.page p true) ++ Resp.rateLimited t :: rest)
      = { exitCode := 1, files := [] } := by
  constructor
  · rw [fetchLoop_consume_pages]
    rfl
  · unfold runIssues
    rw [fetchLoop_consume_pages]
    rfl

/-- C9: if a page request of the bulk fetch loop returns GraphQL-level
errors, the loop stops and returns the items accumulated from the earlier
pages; the run then exits normally, writing one file per accumulated item
plus the index computed over that partial collection. -/
theorem claim_C9 (now : String) (goodPages : List (List Issue)) (rest : List (Resp Issue)) :
    fetchLoop ((goodPages.map fun p => Resp.page p true) ++ Resp.gqlErrors :: rest)
        ([] : List Issue)
      = .ok goodPages.flatten
    ∧ runIssues now ((goodPages.map fun p => Resp.page p true) ++ Resp.gqlErrors :: rest)
      = { exitCode := 0,
          files := (goodPages.flatten.map fun i => (issueFileName i, formatIssue i))
            ++ [("_index.txt", createIssueIndex now goodPages.flatten)] } := by
  constructor
  · rw [fetchLoop_consume_pages]
    rfl
  · unfold runIssues
    rw [fetchLoop_consume_pages]
    rfl

/-- C1 counterexample: the claim asserts that the ordering holds for both
collections because every page request asks the service for creation-time
ascending order, but the discussions page request carries no `orderBy`
argument at all — only the issues request asks for `CREATED_AT` ascending. -/
theorem claim_C1_counterexample :
    ¬ (issuesPageQuery.orderBy
          = some { field := OrderField.CREATED_AT, direction := OrderDirection.ASC }
        ∧ discussionsPageQuery.orderBy
          = some { field := OrderField.CREATED_AT, direction := OrderDirection.ASC }) := by
  decide

/-- C1 amended: the issues page request asks the service for creation-time
ascending order (the discussions request specifies no order), and whenever
the service answers with pages whose concatenation is ascending by creation
time, the page-fetch loop accumulates exactly that concatenation, so the
accumulated issues collection is ordered by creation time ascending. -/
theorem claim_C1_amended (pages : List (List Issue)) (hne : pages ≠ [])
    (hsorted : List.Sorted (fun a b : Issue => a.createdAt ≤ b.createdAt) pages.flatten) :
    issuesPageQuery.orderBy
        = some { field := OrderField.CREATED_AT, direction := OrderDirection.ASC }
    ∧ discussionsPageQuery.orderBy = none
    ∧ ∃ items, fetchLoop (pagesToResps pages) [] = .ok items
        ∧ List.Sorted (fun a b : Issue => a.createdAt ≤ b.createdAt) items := by
  refine ⟨rfl, rfl, pages.flatten, ?_, hsorted⟩
  rw [fetchLoop_pagesToResps pages [] hne, List.nil_append]

/-- C1 witness: the amended statement applied to a one-page service answer. -/
theorem claim_C1_witness :
    ([[exIssueC1]] : List (List Issue)) ≠ []
    ∧ ∃ items, fetchLoop (pagesToResps [[exIssueC1]]) ([] : List Issue) = .ok items
        ∧ List.Sorted (fun a b : Issue => a.createdAt ≤ b.createdAt) items := by
  have hs : List.Sorted (fun a b : Issue => a.createdAt ≤ b.createdAt)
      ([[exIssueC1]] : List (List Issue)).flatten := by simp
  exact ⟨by simp, (claim_C1_amended [[exIssueC1]] (by simp) hs).2.2⟩

/-- C2 counterexample: the issues query bounds the comment connection with
`first: 50` and paginates it no further, so a server-side issue carrying 51
comments is fetched with only 50 of them — its comment tree is not complete
and the retrieval is per-item bounded. -/
theorem claim_C2_counterexample :
    exServerIssue51.comments.length = 51
    ∧ ((issueNodeFromServer exServerIssue51).comments).length = 50
    ∧ (issueNodeFromServer exServerIssue51).comments ≠ exServerIssue51.comments := by
  refine ⟨by decide, by decide, ?_⟩
  intro h
  have := congrArg List.length h
  simp only [issueNodeFromServer] at this
  revert this
  decide

/-- C2 amended: the queries retrieve each item's comments only up to the
per-item bounds written in the query text (`comments(first: 50)`,
`replies(first: 20)`): the fetched comment list is the 50-element prefix of
the server's, and the fetched tree is complete exactly when the item has at
most 50 comments (and, for discussions, every comment at most 20 replies). -/
theorem claim_C2_amended (s : Issue) (d : Discussion) :
    (issueNodeFromServer s).comments
        = s.comments.take issuesQueryBounds.commentsFirst
    ∧ ((issueNodeFromServer s).comments = s.comments ↔ s.comments.length ≤ 50)
    ∧ ((discussionNodeFromServer d).comments = d.comments
        ↔ d.comments.length ≤ 50 ∧ ∀ c ∈ d.comments, c.replies.length ≤ 20) :=
  ⟨rfl, issueNode_comments_complete_iff s, discussionNode_comments_complete_iff d⟩

/-- C2 witness: the amended statement applied to the 51-comment issue. -/
theorem claim_C2_witness :
    (issueNodeFromServer exServerIssue51).comments
      = exServerIssue51.comments.take issuesQueryBounds.commentsFirst :=
  (claim_C2_amended exServerIssue51 exDiscNoCat).1

/-- C7 counterexample: the claimed filename length bound fails for item
numbers with more than four digits, because `{num:04d}` zero-pads to a
minimum of four digits but never truncates: number 10000 with a 51-character
title produces a filename one character over the claimed bound. -/
theorem claim_C7_counterexample :
    ¬ ((itemFilename "issue" 10000 (List.replicate 51 'a')).length
        ≤ 4 + 1 + "issue".length + 1 + 50 + 4) := by
  decide

/-- C7 amended: filename sanitization is idempotent for every title, and the
claimed filename length bound of 4 (zero-padded number) + 1 + prefix length
+ 1 + 50 (truncated title) + 4 (".txt") holds provided the item number fits
in four digits (is at most 9999). -/
theorem claim_C7_amended (pfx : String) (num : Nat) (t : List Char)
    (h : num < 10000) :
    sanitizeTitle (sanitizeTitle t) = sanitizeTitle t
    ∧ (itemFilename pfx num t).length ≤ 4 + 1 + pfx.length + 1 + 50 + 4 :=
  ⟨sanitizeTitle_idem t, itemFilename_length_le h⟩

/-- C7 witness: the amended statement applied to the specification's
worked filename example. -/
theorem claim_C7_witness :
    (42 : Nat) < 10000
    ∧ (sanitizeTitle (sanitizeTitle "Fix crash on load!!".toList)
          = sanitizeTitle "Fix crash on load!!".toList
       ∧ (itemFilename "issue" 42 "Fix crash on load!!".toList).length
          ≤ 4 + 1 + "issue".length + 1 + 50 + 4) :=
  ⟨by decide, claim_C7_amended "issue" 42 "Fix crash on load!!".toList (by decide)⟩

/-! ### Helper lemma: grouping succeeds when every category is present -/

theorem groupByCategoryAux_ok :
    ∀ (ds : List Discussion), (∀ x ∈ ds, x.category.isSome) →
      ∀ acc, ∃ g, groupByCategoryAux acc ds = .ok g := by
  intro ds
  induction ds with
  | nil => intro _ acc; exact ⟨acc, rfl⟩
  | cons d t ih =>
    intro h acc
    obtain ⟨c, hc⟩ := Option.isSome_iff_exists.mp (h d (by simp))
    have hred : groupByCategoryAux acc (d :: t)
        = groupByCategoryAux (addToGroup c.name d acc) t := by
      simp [groupByCategoryAux, hc, categoryName]
    rw [hred]
    exact ih (fun x hx => h x (by simp [hx])) _

/-- C8 counterexample: the claim asserts that the per-item renderer and the
discussion index builder succeed on a discussion whose category is absent,
but both dereference `disc['category']['name']` unconditionally and reach
the failure branch. -/
theorem claim_C8_counterexample :
    formatDiscussionLines exDiscNoCat = .error .noneSubscript
    ∧ createDiscussionIndexLines "2024" [exDiscNoCat] = .error .noneSubscript :=
  ⟨rfl, rfl⟩

/-- C8 amended: for a discussion whose category is present the renderer
succeeds and always emits the Category metadata line, and the index builder
succeeds on a collection all of whose members carry a category; a discussion
whose category is absent makes the renderer fail, because the category name
is read unconditionally. -/
theorem claim_C8_amended (d : Discussion) (cat : Category)
    (hcat : d.category = some cat) (now : String) (ds : List Discussion)
    (hds : ∀ x ∈ ds, x.category.isSome) :
    (∃ ls, formatDiscussionLines d = .ok ls ∧ s!"- **Category**: {cat.name}" ∈ ls)
    ∧ (∀ d2 : Discussion, d2.category = none →
        formatDiscussionLines d2 = .error .noneSubscript)
    ∧ ∃ gls, createDiscussionIndexLines now ds = .ok gls := by
  have hfmt : formatDiscussionLines d = .ok (discMetaLines d cat.name
      ++ ["", "## Description", "", pyOr d.body "*No description provided*"]
      ++ discCommentsSection d.comments) := by
    simp [formatDiscussionLines, hcat, categoryName]
  refine ⟨⟨_, hfmt, ?_⟩, ?_, ?_⟩
  · simp [discMetaLines]
  · intro d2 h2
    simp [formatDiscussionLines, h2, categoryName]
  · obtain ⟨g, hg⟩ := groupByCategoryAux_ok ds hds []
    cases hout : createDiscussionIndexLines now ds with
    | error e =>
      exfalso
      unfold createDiscussionIndexLines at hout
      rw [hg] at hout
      cases hout
    | ok gls => exact ⟨gls, rfl⟩

/-- C8 witness: the amended statement applied to a discussion whose category
is "General". -/
theorem claim_C8_witness :
    exDiscWithCat.category = some (Category.mk "General")
    ∧ ∃ ls, formatDiscussionLines exDiscWithCat = .ok ls
        ∧ "- **Category**: General" ∈ ls := by
  have h := claim_C8_amended exDiscWithCat ⟨"General"⟩ rfl "now" [exDiscWithCat]
    (by decide)
  exact ⟨rfl, h.1⟩

/-- C3: in every rendered document with at least one comment, the comments
block numbers the flattened depth-first sequence of top-level comments and
replies strictly sequentially starting at 1 with no gaps — for discussions
`specCommentLines` numbers the flattened entries `List.enumFrom 1`, each
reply marked "(reply)" and emitted immediately after its parent, and for
issues `specIssueCommentLines` numbers the comment sequence `List.enumFrom 1`
— the header reports the number of top-level comments plus replies, and on
the example with 2 top-level comments whose first has 1 reply the header
reads "## Comments (3)" with headings Comment 1, Comment 2 (reply),
Comment 3. -/
theorem claim_C3 (d : Discussion) (cat : Category)
    (hcat : d.category = some cat) (hne : d.comments ≠ []) :
    formatDiscussionLines d = .ok (discMetaLines d cat.name
      ++ ["", "## Description", "", pyOr d.body "*No description provided*"]
      ++ (["", "---", "", s!"## Comments ({totalComments d.comments})"]
          ++ specCommentLines d.comments))
    ∧ totalComments d.comments
        = d.comments.length + (d.comments.map fun c => c.replies.length).sum
    ∧ (List.enumFrom 1 (flattenComments d.comments)).map Prod.fst
        = List.range' 1 (totalComments d.comments)
    ∧ "## Comments (3)" ∈ (formatDiscussionLines exDiscC3).toOption.getD []
    ∧ ((formatDiscussionLines exDiscC3).toOption.getD []).filter isCommentHeading
        = ["### Comment 1", "### Comment 2 (reply)", "### Comment 3"]
    ∧ (∀ i : Issue, i.comments ≠ [] →
        formatIssueLines i
          = issueMetaLines i
            ++ ["", "## Description", "", pyOr i.body "*No description provided*"]
            ++ (["", "---", "", s!"## Comments ({i.comments.length})"]
                ++ specIssueCommentLines i.comments)
        ∧ (List.enumFrom 1 i.comments).map Prod.fst
            = List.range' 1 i.comments.length) := by
  have hsec : discCommentsSection d.comments
      = ["", "---", "", s!"## Comments ({totalComments d.comments})"]
        ++ specCommentLines d.comments := by
    unfold discCommentsSection
    rw [if_neg (by simpa using hne), discCommentLines_eq_specCommentLines]
  refine ⟨?_, rfl, ?_, by decide, by decide, ?_⟩
  · simp only [formatDiscussionLines, hcat, categoryName, hsec]
  · rw [enumFrom_map_fst, flattenComments_length]
  · intro i hni
    have hisec : issueCommentsSection i.comments
        = ["", "---", "", s!"## Comments ({i.comments.length})"]
          ++ specIssueCommentLines i.comments := by
      unfold issueCommentsSection
      rw [if_neg (by simpa using hni), issueCommentsLines_eq_spec]
      rfl
    exact ⟨by simp only [formatIssueLines, hisec], by rw [enumFrom_map_fst]⟩

/-- C3 witness: the numbering statement applied to the specification's
worked two-comments-one-reply example and, on the issue side, to a
two-comment issue. -/
theorem claim_C3_witness :
    exDiscC3.category = some (Category.mk "Q&A") ∧ exDiscC3.comments ≠ []
    ∧ exIssueC3.comments ≠ []
    ∧ (∃ ls, formatDiscussionLines exDiscC3 = .ok ls)
    ∧ (List.enumFrom 1 exIssueC3.comments).map Prod.fst
        = List.range' 1 exIssueC3.comments.length := by
  have h := claim_C3 exDiscC3 ⟨"Q&A"⟩ rfl (by decide)
  exact ⟨rfl, by decide, by decide, ⟨_, h.1⟩,
    (h.2.2.2.2.2 exIssueC3 (by decide)).2⟩

/-- C5: every rendered item document contains a Description section whose
text is the raw body verbatim when non-empty and the fixed placeholder
"*No description provided*" when the body is empty or absent, and the
separator plus Comments section appear exactly when the item has at least
one comment; the worked example — issue 42, title "Fix crash on load!!",
empty body, zero comments — renders to the expected document with no
Comments section. -/
theorem claim_C5 (i : Issue) :
    formatIssueLines i
      = issueMetaLines i ++ ["", "## Description", "", descriptionSpec i.body]
        ++ issueCommentsSection i.comments
    ∧ (issueCommentsSection i.comments = [] ↔ i.comments = [])
    ∧ (∀ d : Discussion, ∀ ls, formatDiscussionLines d = .ok ls →
        ∃ pre, ls = pre ++ ["", "## Description", "", descriptionSpec d.body]
            ++ discCommentsSection d.comments
          ∧ (discCommentsSection d.comments = [] ↔ d.comments = []))
    ∧ formatIssue exIssue42
        = "# Issue #42: Fix crash on load!!\n\n## Metadata\n- **State**: open\n- **Author**: alice\n- **Created**: 2024-01-01T00:00:00Z\n- **Updated**: 2024-01-02T00:00:00Z\n- **URL**: https://github.com/molstar/molstar/issues/42\n\n## Description\n\n*No description provided*" := by
  refine ⟨?_, ?_, ?_, by rfl⟩
  · simp only [formatIssueLines, pyOr_eq_descriptionSpec]
  · cases hc : i.comments with
    | nil => simp [issueCommentsSection]
    | cons a t => simp [issueCommentsSection]
  · intro d ls h
    cases hcat : d.category with
    | none => simp [formatDiscussionLines, hcat, categoryName] at h
    | some cat =>
      simp only [formatDiscussionLines, hcat, categoryName] at h
      injection h with h2
      refine ⟨discMetaLines d cat.name, ?_, ?_⟩
      · rw [← h2]
        simp [pyOr_eq_descriptionSpec, List.append_assoc]
      · cases hc : d.comments with
        | nil => simp [discCommentsSection]
        | cons a t => simp [discCommentsSection]

/-- C5 witness: the layout statement applied to the worked issue-42
example. -/
theorem claim_C5_witness :
    formatIssueLines exIssue42
      = issueMetaLines exIssue42
        ++ ["", "## Description", "", descriptionSpec exIssue42.body]
        ++ issueCommentsSection exIssue42.comments :=
  (claim_C5 exIssue42).1

end Molstar
